import Mathlib

/-!
Verification of the content-type registry, negotiation and transcoding layer
of sprockets.mixins.mediatype against its specification.

The definitions below embed the code of
src/sprockets/mixins/mediatype/content.py.  The ietfparse helpers
(parse_content_type, ContentType.__str__, parse_accept, select_content_type)
and the transcoders module are not part of src/, so they are modelled from
the specification where needed; every such definition is marked in its doc
comment.
-/

namespace Sprockets

/-- Modelled from the spec: ASCII lowercasing of media-type tokens
(section 4.1: comparison and lookup are case-insensitive; section 3:
serializing a MediaType lowercases type, subtype and parameters). -/
def lowerChar (c : Char) : Char :=
  match c with
  | 'A' => 'a'
  | 'B' => 'b'
  | 'C' => 'c'
  | 'D' => 'd'
  | 'E' => 'e'
  | 'F' => 'f'
  | 'G' => 'g'
  | 'H' => 'h'
  | 'I' => 'i'
  | 'J' => 'j'
  | 'K' => 'k'
  | 'L' => 'l'
  | 'M' => 'm'
  | 'N' => 'n'
  | 'O' => 'o'
  | 'P' => 'p'
  | 'Q' => 'q'
  | 'R' => 'r'
  | 'S' => 's'
  | 'T' => 't'
  | 'U' => 'u'
  | 'V' => 'v'
  | 'W' => 'w'
  | 'X' => 'x'
  | 'Y' => 'y'
  | 'Z' => 'z'
  | other => other

/-- Split a character list on a separator character; the separator is not
part of any returned segment.  Models the string splitting used by the
media-type parser. -/
def splitOnChar (c : Char) : List Char → List (List Char)
  | [] => [[]]
  | x :: xs =>
    let r := splitOnChar c xs
    if x = c then [] :: r
    else
      match r with
      | [] => [[x]]
      | s :: rest => (x :: s) :: rest

/-- Strip leading and trailing space characters. -/
def trimChars (l : List Char) : List Char :=
  ((l.dropWhile (fun c => c = ' ')).reverse.dropWhile (fun c => c = ' ')).reverse

/-- Modelled from the spec: the parsed, normalized representation of a MIME
type (section 3 MediaType): primary type, subtype, optional structured-syntax
suffix and a parameter mapping.  Mirrors ietfparse.datastructures.ContentType,
which is not part of src/. -/
structure ContentType where
  content_type : String
  content_subtype : String
  content_suffix : Option String
  parameters : List (String × String)
deriving DecidableEq

/-- Update a parameter mapping the way a Python dict assignment does: replace
the value when the key is present, append otherwise. -/
def updateAssoc (ps : List (String × String)) (kv : String × String) :
    List (String × String) :=
  if ps.any (fun p => p.1 = kv.1) then
    ps.map (fun p => if p.1 = kv.1 then (p.1, kv.2) else p)
  else ps ++ [kv]

/-- Parse one parameter segment into a lowercased, trimmed key/value pair. -/
def parseParam (seg : List Char) : String × String :=
  match splitOnChar '=' seg with
  | [] => ("", "")
  | [k] => (String.mk (trimChars (k.map lowerChar)), "")
  | k :: v :: _ =>
    (String.mk (trimChars (k.map lowerChar)), String.mk (trimChars (v.map lowerChar)))

/-- The trimmed, lowercased segment of a media-type string before the first
semicolon. -/
def ctHeadSeg (s : String) : List Char :=
  trimChars (((splitOnChar ';' s.data).headD []).map lowerChar)

/-- The slash-separated pieces of the head segment. -/
def ctSlash (s : String) : List (List Char) :=
  splitOnChar '/' (ctHeadSeg s)

/-- The characters after the first slash of the head segment. -/
def ctRest (s : String) : List Char :=
  (ctSlash s).tail.headD []

/-- The plus-separated pieces of the subtype part. -/
def ctPlus (s : String) : List (List Char) :=
  splitOnChar '+' (ctRest s)

/-- Modelled from the spec: parse a media-type string into a MediaType value
(section 4.1), lowercasing type, subtype and parameters.  Mirrors
ietfparse.headers.parse_content_type (with its default parameter-value
normalization), which is not part of src/. -/
def parse_content_type (s : String) : ContentType :=
  ⟨String.mk ((ctSlash s).headD []),
   String.mk ((ctPlus s).headD []),
   if (ctPlus s).length ≥ 2 then some (String.mk ((ctPlus s).getLastD [])) else none,
   (splitOnChar ';' s.data).tail.foldl (fun acc seg => updateAssoc acc (parseParam seg)) []⟩

/-- Total order on parameter pairs used to alphabetize parameters: compare
keys first, then values. -/
def paramLe (a b : String × String) : Prop :=
  a.1 < b.1 ∨ (a.1 = b.1 ∧ a.2 ≤ b.2)

instance : DecidableRel paramLe := fun a b => by
  unfold paramLe; infer_instance

instance : IsTotal (String × String) paramLe := by
  constructor
  intro a b
  rcases lt_trichotomy a.1 b.1 with h | h | h
  · exact Or.inl (Or.inl h)
  · rcases le_total a.2 b.2 with hv | hv
    · exact Or.inl (Or.inr ⟨h, hv⟩)
    · exact Or.inr (Or.inr ⟨h.symm, hv⟩)
  · exact Or.inr (Or.inl h)

instance : IsTrans (String × String) paramLe := by
  constructor
  intro a b c hab hbc
  rcases hab with h1 | ⟨h1, v1⟩
  · rcases hbc with h2 | ⟨h2, v2⟩
    · exact Or.inl (h1.trans h2)
    · exact Or.inl (h2 ▸ h1)
  · rcases hbc with h2 | ⟨h2, v2⟩
    · exact Or.inl (h1 ▸ h2)
    · exact Or.inr ⟨h1.trans h2, v1.trans v2⟩

instance : IsAntisymm (String × String) paramLe := by
  constructor
  intro a b hab hba
  rcases hab with h1 | ⟨h1, v1⟩
  · rcases hba with h2 | ⟨h2, v2⟩
    · exact absurd (h1.trans h2) (lt_irrefl _)
    · exact absurd h1 (h2 ▸ lt_irrefl _)
  · rcases hba with h2 | ⟨h2, v2⟩
    · exact absurd h2 (h1 ▸ lt_irrefl _)
    · exact Prod.ext h1 (le_antisymm v1 v2)

/-- Modelled from the spec: serialize a MediaType back to its normalized
string form (section 3): lowercased type and subtype, optional suffix,
parameters alphabetized by key and rendered as a semicolon-separated list.
Mirrors str() on ietfparse.datastructures.ContentType, not part of src/. -/
def strCT (ct : ContentType) : String :=
  let base := ct.content_type ++ "/" ++ ct.content_subtype
  let base :=
    match ct.content_suffix with
    | some sfx => base ++ "+" ++ sfx
    | none => base
  (List.insertionSort paramLe ct.parameters).foldl
    (fun acc kv => acc ++ "; " ++ kv.1 ++ "=" ++ kv.2) base

/-- The structured values exchanged with transcoders: the dynamically typed
tree of src (JSON-like values plus raw byte buffers). -/
inductive PyVal where
  | null
  | boolv (b : Bool)
  | intv (n : Int)
  | strv (s : String)
  | bytesv (bs : List Nat)
  | listv (xs : List PyVal)
  | dictv (kvs : List (String × PyVal))

/-- The Python test for the request-body cache field being unset
(self.request body is None). -/
def PyVal.isNull : PyVal → Bool
  | .null => true
  | _ => false

/-- A content handler as used by ContentSettings: the transcoder protocol
with to_bytes returning the effective content type and encoded bytes, and
from_bytes either decoding or failing. -/
structure PyHandler where
  to_bytes : PyVal → String × List Nat
  from_bytes : List Nat → Except Unit PyVal

/-- The registry state of ContentSettings in content.py: the handler dict,
the ordered availability list and the two default scalars. -/
structure ContentSettings where
  _handlers : List (String × PyHandler)
  _available_types : List ContentType
  default_content_type : Option String
  default_encoding : Option String

/-- ContentSettings.__init__: empty mappings and unset defaults. -/
def ContentSettings.empty : ContentSettings :=
  ⟨[], [], none, none⟩

/-- Dictionary lookup on the handler mapping. -/
def lookupA : List (String × PyHandler) → String → Option PyHandler
  | [], _ => none
  | (k, h) :: rest, key => if k = key then some h else lookupA rest key

/-- ContentSettings.__setitem__ (content.py lines 106-116): normalize the
key, no-op when present, otherwise append to the availability list and
store the handler. -/
def ContentSettings.setitem (s : ContentSettings) (content_type : String)
    (handler : PyHandler) : ContentSettings :=
  let parsed := parse_content_type content_type
  let key := strCT parsed
  match lookupA s._handlers key with
  | some _ => s
  | none =>
    { s with
      _available_types := s._available_types ++ [parsed],
      _handlers := s._handlers ++ [(key, handler)] }

/-- ContentSettings.__getitem__ (content.py lines 101-104): normalize the
lookup key and consult the handler dict; none models the KeyError. -/
def ContentSettings.getitem (s : ContentSettings) (content_type : String) :
    Option PyHandler :=
  lookupA s._handlers (strCT (parse_content_type content_type))

/-- ContentSettings.get (content.py lines 118-123): raw dict get without
normalization. -/
def ContentSettings.get (s : ContentSettings) (content_type : String) :
    Option PyHandler :=
  lookupA s._handlers content_type

/-- install (content.py lines 138-159): the first component is the returned
settings object, the second the application settings slot after the call.
When the slot is occupied the existing instance is returned untouched;
otherwise a fresh instance is created and the two defaults are assigned. -/
def install (appSettings : Option ContentSettings)
    (default_content_type : Option String) (encoding : Option String) :
    ContentSettings × Option ContentSettings :=
  match appSettings with
  | some s => (s, some s)
  | none =>
    let s := { ContentSettings.empty with
               default_content_type := default_content_type,
               default_encoding := encoding }
    (s, some s)

/-- Digits of a decimal numeral to a natural number. -/
def digitsToNat (l : List Char) : Nat :=
  l.foldl (fun acc c => acc * 10 + (c.toNat - 48)) 0

/-- Modelled from the spec: a quality weight 0.0 - 1.0 (section 4.7) read
into thousandths. -/
def parseQuality (s : String) : Nat :=
  match splitOnChar '.' s.data with
  | [] => 1000
  | [i] => digitsToNat i * 1000
  | i :: f :: _ => digitsToNat i * 1000 + digitsToNat ((f ++ ['0', '0', '0']).take 3)

/-- Modelled from the spec: parse an Accept header into weighted media
ranges (section 4.7 step 1); the q parameter is lifted out of the parameter
list, defaulting to 1.  Mirrors ietfparse.headers.parse_accept, not part of
src/. -/
def parse_accept (s : String) : List (ContentType × Nat) :=
  (splitOnChar ',' s.data).map (fun seg =>
    let ct := parse_content_type (String.mk seg)
    let q :=
      match ct.parameters.find? (fun p => p.1 = "q") with
      | some p => parseQuality p.2
      | none => 1000
    ({ ct with parameters := ct.parameters.filter (fun p => p.1 ≠ "q") }, q))

/-- Do all parameters of the first list appear in the second? -/
def paramsSubset (ps qs : List (String × String)) : Bool :=
  ps.all (fun p => qs.any (fun x => x = p))

/-- Modelled from the spec: specificity of a media range against an
available type (section 4.7 step 2): an exact type/subtype/suffix/parameter
match (2) beats a wildcard subtype (1) beats a full wildcard (0); none when
the range does not match at all. -/
def matchLevel (r a : ContentType) : Option Nat :=
  if r.content_type = "*" then some 0
  else if r.content_type = a.content_type then
    if r.content_subtype = "*" then some 1
    else if r.content_subtype = a.content_subtype ∧
            r.content_suffix = a.content_suffix ∧
            paramsSubset r.parameters a.parameters then some 2
    else none
  else none

/-- Modelled from the spec: the best matching range for one available type
(section 4.7 step 2): ranges with quality 0 are excluded, higher specificity
wins, then higher quality. -/
def bestRangeFor (ranges : List (ContentType × Nat)) (a : ContentType) :
    Option (Nat × Nat) :=
  ranges.foldl
    (fun best rq =>
      if rq.2 = 0 then best
      else
        match matchLevel rq.1 a with
        | none => best
        | some lvl =>
          match best with
          | none => some (lvl, rq.2)
          | some b =>
            if lvl > b.1 ∨ (lvl = b.1 ∧ rq.2 > b.2) then some (lvl, rq.2) else best)
    none

/-- Modelled from the spec: RFC 7231 section 5.3.2 selection (section 4.7):
pick the available type whose best matching range has the greatest
specificity, then quality, ties broken by earliest registration order.
Mirrors ietfparse.algorithms.select_content_type, not part of src/. -/
def select_content_type (ranges : List (ContentType × Nat))
    (avail : List ContentType) : Option ContentType :=
  (avail.foldl
    (fun best a =>
      match bestRangeFor ranges a with
      | none => best
      | some s =>
        match best with
        | none => some (a, s)
        | some b =>
          if s.1 > b.2.1 ∨ (s.1 = b.2.1 ∧ s.2 > b.2.2) then some (a, s) else best)
    none).map Prod.fst

/-- The type/subtype (+suffix) join performed by the mixin before registry
lookups (content.py lines 350-354 and 377-383). -/
def baseOf (ct : ContentType) : String :=
  let m := ct.content_type ++ "/" ++ ct.content_subtype
  match ct.content_suffix with
  | some sfx => m ++ "+" ++ sfx
  | none => m

/-- Request-header dictionary lookup. -/
def hget (headers : List (String × String)) (k : String) : Option String :=
  (headers.find? (fun p => p.1 = k)).map Prod.snd

/-- The per-request state of a ContentMixin handler: the mutable request
headers, the raw body, the application settings and the two memoization
fields set up by initialize (content.py lines 331-335). -/
structure ReqHandler where
  headers : List (String × String)
  body : List Nat
  settings : ContentSettings
  _best_response_match : Option String
  _request_body : PyVal

/-- The negotiation core of get_response_content_type: select against the
availability list, reduce the winner to type/subtype(+suffix), and fall
back to the default content type when nothing matches (content.py lines
347-356). -/
def negotiateAccept (hv : String) (s : ContentSettings) : Option String :=
  match select_content_type (parse_accept hv) s._available_types with
  | some selected => some (baseOf selected)
  | none => s.default_content_type

/-- ContentMixin.get_response_content_type (content.py lines 337-358):
returns the memoized match when one is stored; otherwise reads the Accept
header, substituting the default content type when the header is absent and
the default is truthy, else */*, negotiates and stores the result. -/
def get_response_content_type (st : ReqHandler) : Option String × ReqHandler :=
  match st._best_response_match with
  | some m => (some m, st)
  | none =>
    let hv :=
      match hget st.headers "Accept" with
      | some v => v
      | none =>
        match st.settings.default_content_type with
        | some d => if d = "" then "*/*" else d
        | none => "*/*"
    let r := negotiateAccept hv st.settings
    (r, { st with _best_response_match := r })

/-- The failures get_request_body and send_response can surface: an
HTTPError with a status code, an uncaught KeyError from the registry
lookup, or an uncaught error from passing None where a string is
required. -/
inductive HErr where
  | http (code : Nat)
  | keyError
  | pyError
deriving DecidableEq

/-- ContentMixin.get_request_body (content.py lines 360-396): when the
cache field is None, read the declared Content-Type (default when absent),
reduce it to type/subtype(+suffix), look the transcoder up (415 on a miss),
decode (400 on failure) and store the decoded value; otherwise return the
cached value. -/
def get_request_body (st : ReqHandler) : Except HErr (PyVal × ReqHandler) :=
  if st._request_body.isNull then
    match
      (match hget st.headers "Content-Type" with
       | some v => some v
       | none => st.settings.default_content_type) with
    | none => .error .pyError
    | some hv =>
      match st.settings.getitem (baseOf (parse_content_type hv)) with
      | none => .error (.http 415)
      | some handler =>
        match handler.from_bytes st.body with
        | .error _ => .error (.http 400)
        | .ok v => .ok (v, { st with _request_body := v })
  else .ok (st._request_body, st)

/-- The observable outcome of send_response: the two optional response
headers it may set, the bytes written and the handler state after the
internal get_response_content_type call. -/
structure SendResult where
  content_type_header : Option String
  vary_header : Option String
  written : List Nat
  st : ReqHandler

/-- ContentMixin.send_response (content.py lines 398-423): resolve the
response content type (415 when falsy), look the transcoder up in the
registry (an uncaught KeyError when absent), encode, optionally set the
Content-Type and Vary headers, and write the bytes. -/
def send_response (st : ReqHandler) (body : PyVal) (set_content_type : Bool) :
    Except HErr SendResult :=
  match (get_response_content_type st).1 with
  | none => .error (.http 415)
  | some response_type =>
    if response_type = "" then .error (.http 415)
    else
      match (get_response_content_type st).2.settings.getitem response_type with
      | none => .error .keyError
      | some handler =>
        .ok { content_type_header :=
                if set_content_type then some (handler.to_bytes body).1 else none,
              vary_header := if set_content_type then some "Accept" else none,
              written := (handler.to_bytes body).2,
              st := (get_response_content_type st).2 }

/-- UTF-8 encoding of one character as byte values. -/
def utf8CharBytes (c : Char) : List Nat :=
  let n := c.toNat
  if n < 128 then [n]
  else if n < 2048 then [192 + n / 64, 128 + n % 64]
  else if n < 65536 then [224 + n / 4096, 128 + n / 64 % 64, 128 + n % 64]
  else [240 + n / 262144, 128 + n / 4096 % 64, 128 + n / 64 % 64, 128 + n % 64]

/-- UTF-8 encoding of a string as byte values. -/
def utf8Bytes (s : String) : List Nat :=
  (s.data.map utf8CharBytes).flatten

/-- Big-endian bytes of a natural number in a fixed width. -/
def beBytes (width n : Nat) : List Nat :=
  (List.range width).map (fun i => n / 256 ^ (width - 1 - i) % 256)

/-- Modelled from the spec: string rule of the Canonical Binary Codec
(section 4.5): fixstr under 32 bytes, then str8, str16, str32 by UTF-8
byte length, a length tag followed by the raw UTF-8 bytes. -/
def packStr (s : String) : List Nat :=
  let b := utf8Bytes s
  if b.length < 32 then (0xA0 + b.length) :: b
  else if b.length < 256 then 0xD9 :: b.length :: b
  else if b.length < 65536 then 0xDA :: beBytes 2 b.length ++ b
  else 0xDB :: beBytes 4 b.length ++ b

mutual

/-- Modelled from the spec: the Canonical Binary Codec encoder (section
4.5), MessagePack-compatible, always choosing the smallest format family
that losslessly represents the value.  The transcoders module is not part
of src/. -/
def pack : PyVal → Except Unit (List Nat)
  | .null => .ok [0xC0]
  | .boolv false => .ok [0xC2]
  | .boolv true => .ok [0xC3]
  | .intv n =>
    if 0 ≤ n then
      let m := n.toNat
      if m < 128 then .ok [m]
      else if m < 256 then .ok [0xCC, m]
      else if m < 65536 then .ok (0xCD :: beBytes 2 m)
      else if m < 4294967296 then .ok (0xCE :: beBytes 4 m)
      else if m < 18446744073709551616 then .ok (0xCF :: beBytes 8 m)
      else .error ()
    else
      if -32 ≤ n then .ok [(256 + n).toNat]
      else if -128 ≤ n then .ok [0xD0, (256 + n).toNat]
      else if -32768 ≤ n then .ok (0xD1 :: beBytes 2 (65536 + n).toNat)
      else if -2147483648 ≤ n then .ok (0xD2 :: beBytes 4 (4294967296 + n).toNat)
      else if -9223372036854775808 ≤ n then
        .ok (0xD3 :: beBytes 8 (18446744073709551616 + n).toNat)
      else .error ()
  | .strv s => .ok (packStr s)
  | .bytesv bs =>
    if bs.length < 256 then .ok (0xC4 :: bs.length :: bs)
    else if bs.length < 65536 then .ok (0xC5 :: beBytes 2 bs.length ++ bs)
    else .ok (0xC6 :: beBytes 4 bs.length ++ bs)
  | .listv xs => do
    let body ← packList xs
    if xs.length < 16 then .ok ((0x90 + xs.length) :: body)
    else if xs.length < 65536 then .ok (0xDC :: beBytes 2 xs.length ++ body)
    else .ok (0xDD :: beBytes 4 xs.length ++ body)
  | .dictv kvs => do
    let body ← packDict kvs
    if kvs.length < 16 then .ok ((0x80 + kvs.length) :: body)
    else if kvs.length < 65536 then .ok (0xDE :: beBytes 2 kvs.length ++ body)
    else .ok (0xDF :: beBytes 4 kvs.length ++ body)

/-- Encode the elements of an array family value in order. -/
def packList : List PyVal → Except Unit (List Nat)
  | [] => .ok []
  | x :: xs => do
    let b ← pack x
    let rest ← packList xs
    .ok (b ++ rest)

/-- Encode the key/value pairs of a map family value in order. -/
def packDict : List (String × PyVal) → Except Unit (List Nat)
  | [] => .ok []
  | kv :: rest => do
    let vb ← pack kv.2
    let restb ← packDict rest
    .ok (packStr kv.1 ++ vb ++ restb)

end

/-- A fake content handler, mirroring the FakeContentHandler of the tests. -/
def fakeHandler : PyHandler :=
  ⟨fun _ => ("", []), fun _ => .ok .null⟩

/-- A second distinct fake handler for overwrite experiments. -/
def otherHandler : PyHandler :=
  ⟨fun _ => ("other", []), fun _ => .error ()⟩

theorem insertionSort_paramLe_eq_of_perm {p q : List (String × String)}
    (h : p.Perm q) :
    List.insertionSort paramLe p = List.insertionSort paramLe q :=
  List.eq_of_perm_of_sorted
    ((List.perm_insertionSort paramLe p).trans
      (h.trans (List.perm_insertionSort paramLe q).symm))
    (List.sorted_insertionSort paramLe p)
    (List.sorted_insertionSort paramLe q)

theorem strCT_eq_of_perm {c1 c2 : ContentType}
    (ht : c1.content_type = c2.content_type)
    (hs : c1.content_subtype = c2.content_subtype)
    (hx : c1.content_suffix = c2.content_suffix)
    (hp : c1.parameters.Perm c2.parameters) :
    strCT c1 = strCT c2 := by
  unfold strCT
  rw [ht, hs, hx, insertionSort_paramLe_eq_of_perm hp]

theorem lookupA_append_single (l : List (String × PyHandler)) (k : String)
    (h : PyHandler) (hnone : lookupA l k = none) :
    lookupA (l ++ [(k, h)]) k = some h := by
  induction l with
  | nil => simp [lookupA]
  | cons kh rest ih =>
    rw [List.cons_append]
    unfold lookupA at hnone ⊢
    by_cases hk : kh.1 = k
    · rw [if_pos hk] at hnone
      exact absurd hnone (by simp)
    · rw [if_neg hk] at hnone ⊢
      exact ih hnone

/-- C1: registering a handler under one media-type string and looking it up
under a string whose parse differs only by parameter order (and letter case,
which parsing has already normalized away) finds the same handler, because
both normalize to the same registry key. -/
theorem content_settings_normalizes_keys
    (settings : ContentSettings) (s1 s2 : String) (h : PyHandler)
    (ht : (parse_content_type s1).content_type = (parse_content_type s2).content_type)
    (hs : (parse_content_type s1).content_subtype = (parse_content_type s2).content_subtype)
    (hx : (parse_content_type s1).content_suffix = (parse_content_type s2).content_suffix)
    (hp : (parse_content_type s1).parameters.Perm (parse_content_type s2).parameters)
    (hfresh : lookupA settings._handlers (strCT (parse_content_type s1)) = none) :
    (settings.setitem s1 h).getitem s2 = some h := by
  have hkey : strCT (parse_content_type s1) = strCT (parse_content_type s2) :=
    strCT_eq_of_perm ht hs hx hp
  simp only [ContentSettings.setitem, ContentSettings.getitem, hfresh]
  rw [← hkey]
  exact lookupA_append_single _ _ _ hfresh

/-- Witness for C1 at the concrete strings of the claim. -/
theorem content_settings_normalizes_keys_witness :
    ((parse_content_type "application/json; VerSion=foo; type=WhatEver").content_type
      = (parse_content_type "application/json; type=whatever; version=foo").content_type
    ∧ (parse_content_type "application/json; VerSion=foo; type=WhatEver").content_subtype
      = (parse_content_type "application/json; type=whatever; version=foo").content_subtype
    ∧ (parse_content_type "application/json; VerSion=foo; type=WhatEver").content_suffix
      = (parse_content_type "application/json; type=whatever; version=foo").content_suffix
    ∧ (parse_content_type "application/json; VerSion=foo; type=WhatEver").parameters.Perm
      (parse_content_type "application/json; type=whatever; version=foo").parameters
    ∧ lookupA ContentSettings.empty._handlers
        (strCT (parse_content_type "application/json; VerSion=foo; type=WhatEver")) = none)
    ∧ (ContentSettings.empty.setitem
        "application/json; VerSion=foo; type=WhatEver" fakeHandler).getitem
        "application/json; type=whatever; version=foo" = some fakeHandler :=
  ⟨⟨by decide, by decide, by decide, by decide, rfl⟩,
   content_settings_normalizes_keys ContentSettings.empty
    "application/json; VerSion=foo; type=WhatEver"
    "application/json; type=whatever; version=foo" fakeHandler
    (by decide) (by decide) (by decide) (by decide) rfl⟩

/-- C2: a second registration under an already-present normalized key is a
no-op: the settings object is unchanged, the originally registered handler
keeps being returned by lookup and the availability list gains nothing. -/
theorem second_registration_is_noop
    (settings : ContentSettings) (ct : String) (h2 : PyHandler)
    (hpresent : (lookupA settings._handlers (strCT (parse_content_type ct))).isSome = true) :
    settings.setitem ct h2 = settings
    ∧ (settings.setitem ct h2).getitem ct = settings.getitem ct
    ∧ (settings.setitem ct h2)._available_types = settings._available_types := by
  have heq : settings.setitem ct h2 = settings := by
    cases hl : lookupA settings._handlers (strCT (parse_content_type ct)) with
    | none => rw [hl] at hpresent; simp [Option.isSome] at hpresent
    | some h0 => simp only [ContentSettings.setitem, hl]
  exact ⟨heq, by rw [heq], by rw [heq]⟩

/-- Witness for C2: register twice under the same key. -/
theorem second_registration_is_noop_witness :
    (lookupA (ContentSettings.empty.setitem "application/json" fakeHandler)._handlers
      (strCT (parse_content_type "application/json"))).isSome = true
    ∧ ((ContentSettings.empty.setitem "application/json" fakeHandler).setitem
        "application/json" otherHandler
      = ContentSettings.empty.setitem "application/json" fakeHandler
    ∧ ((ContentSettings.empty.setitem "application/json" fakeHandler).setitem
        "application/json" otherHandler).getitem "application/json"
      = (ContentSettings.empty.setitem "application/json" fakeHandler).getitem "application/json"
    ∧ ((ContentSettings.empty.setitem "application/json" fakeHandler).setitem
        "application/json" otherHandler)._available_types
      = (ContentSettings.empty.setitem "application/json" fakeHandler)._available_types) :=
  ⟨by decide,
   second_registration_is_noop
    (ContentSettings.empty.setitem "application/json" fakeHandler)
    "application/json" otherHandler (by decide)⟩

/-- C10: when a ContentSettings instance is already installed, install
returns it unchanged and its arguments are ignored; the arguments take
effect exactly on the call that creates the instance. -/
theorem install_returns_existing_unchanged
    (s : ContentSettings) (dct enc : Option String) :
    install (some s) dct enc = (s, some s)
    ∧ ∀ dct2 enc2 : Option String,
        install none dct2 enc2 =
          ({ ContentSettings.empty with
             default_content_type := dct2, default_encoding := enc2 },
           some { ContentSettings.empty with
                  default_content_type := dct2, default_encoding := enc2 }) :=
  ⟨rfl, fun _ _ => rfl⟩

theorem grct_of_cached {st2 : ReqHandler} {m : String}
    (h : st2._best_response_match = some m) :
    get_response_content_type st2 = (some m, st2) := by
  unfold get_response_content_type
  rw [h]

theorem grct_cache_some {st : ReqHandler} {m : String}
    (h : (get_response_content_type st).1 = some m) :
    (get_response_content_type st).2._best_response_match = some m := by
  unfold get_response_content_type at h ⊢
  cases hb : st._best_response_match with
  | some m0 =>
    rw [hb] at h
    change st._best_response_match = some m
    rw [hb]
    exact h
  | none =>
    rw [hb] at h
    exact h

/-- Registry of the C3 experiments: a single json handler, no default. -/
def c3Settings : ContentSettings :=
  ContentSettings.empty.setitem "application/json" fakeHandler

/-- A request whose Accept header matches nothing in c3Settings. -/
def c3State : ReqHandler :=
  { headers := [("Accept", "application/xml")], body := [],
    settings := c3Settings, _best_response_match := none, _request_body := .null }

/-- C3 counterexample: when the first negotiation finds no match and no
default is set, the None result is not memoized; mutating the Accept header
makes a second call renegotiate and return a different result. -/
theorem response_content_type_not_memoized_when_none :
    (get_response_content_type c3State).1 = none
    ∧ (get_response_content_type
        { (get_response_content_type c3State).2 with
          headers := [("Accept", "application/json")] }).1
      = some "application/json" :=
  ⟨by decide, by decide⟩

/-- C3 amended: whenever get_response_content_type returns an actual content
type (not None), the result is memoized: any later call in the same request
returns the identical value and leaves the state untouched, even after the
Accept header is replaced arbitrarily. -/
theorem response_content_type_memoized_when_some
    (st : ReqHandler) (m : String) (newHeaders : List (String × String))
    (h : (get_response_content_type st).1 = some m) :
    get_response_content_type
      { (get_response_content_type st).2 with headers := newHeaders }
    = (some m, { (get_response_content_type st).2 with headers := newHeaders }) :=
  grct_of_cached (grct_cache_some h)

/-- A request whose Accept header matches the registered json handler. -/
def c3WState : ReqHandler :=
  { headers := [("Accept", "application/json")], body := [],
    settings := c3Settings, _best_response_match := none, _request_body := .null }

/-- Witness for the amended C3: a matching first call is memoized across an
Accept-header wipe. -/
theorem response_content_type_memoized_when_some_witness :
    (get_response_content_type c3WState).1 = some "application/json"
    ∧ get_response_content_type
        { (get_response_content_type c3WState).2 with headers := [] }
      = (some "application/json",
         { (get_response_content_type c3WState).2 with headers := [] }) :=
  ⟨by decide,
   response_content_type_memoized_when_some c3WState "application/json" []
    (by decide)⟩

/-- A transcoder behaving like the JSON transcoder on the body b"null":
decodes it to the null value, anything else is a decode error. -/
def c4Handler : PyHandler :=
  ⟨fun _ => ("application/json", []),
   fun bs => if bs = [110, 117, 108, 108] then .ok .null else .error ()⟩

/-- Registry of the C4 experiments. -/
def c4Settings : ContentSettings :=
  ContentSettings.empty.setitem "application/json" c4Handler

/-- A request declaring application/json with body b"null". -/
def c4State : ReqHandler :=
  { headers := [("Content-Type", "application/json")], body := [110, 117, 108, 108],
    settings := c4Settings, _best_response_match := none, _request_body := .null }

/-- C4 counterexample: a body decoding to None is not cached, so after the
declared Content-Type is mutated to an unregistered type a second call does
not return the previously decoded value but fails with a 415 error. -/
theorem request_body_not_memoized_when_null :
    get_request_body c4State = .ok (.null, c4State)
    ∧ get_request_body
        { c4State with headers := [("Content-Type", "application/xml")] }
      = .error (.http 415) :=
  ⟨rfl, rfl⟩

/-- C4 amended: when the decoded request body is not None it is cached:
every later call in the same request returns the identical value without
decoding again, even after the Content-Type header is replaced
arbitrarily. -/
theorem request_body_memoized_when_not_null
    (st st1 : ReqHandler) (v : PyVal) (newHeaders : List (String × String))
    (h : get_request_body st = .ok (v, st1)) (hv : v.isNull = false) :
    get_request_body { st1 with headers := newHeaders }
    = .ok (v, { st1 with headers := newHeaders }) := by
  have hr : st1._request_body = v := by
    unfold get_request_body at h
    by_cases hb : st._request_body.isNull
    · rw [if_pos hb] at h
      split at h
      · nomatch h
      · split at h
        · nomatch h
        · split at h
          · nomatch h
          · injection h with h1
            injection h1 with hv1 hst
            rw [← hst]
            exact hv1
    · rw [if_neg hb] at h
      injection h with h1
      injection h1 with hv1 hst
      rw [← hst]
      exact hv1
  unfold get_request_body
  rw [show ({ st1 with headers := newHeaders } : ReqHandler)._request_body = v from hr, hv]
  simp

/-- A request declaring application/json with a body decoding to a string. -/
def c4WHandler : PyHandler :=
  ⟨fun _ => ("application/json", []), fun _ => .ok (.strv "hi")⟩

/-- Witnessing state for the amended C4. -/
def c4WState : ReqHandler :=
  { headers := [("Content-Type", "application/json")], body := [34, 104, 105, 34],
    settings := ContentSettings.empty.setitem "application/json" c4WHandler,
    _best_response_match := none, _request_body := .null }

/-- Witness for the amended C4: a non-None decode is cached across a
Content-Type mutation. -/
theorem request_body_memoized_when_not_null_witness :
    (get_request_body c4WState
      = .ok (.strv "hi", { c4WState with _request_body := .strv "hi" })
    ∧ (PyVal.strv "hi").isNull = false)
    ∧ get_request_body
        { { c4WState with _request_body := .strv "hi" } with
          headers := [("Content-Type", "application/xml")] }
      = .ok (.strv "hi",
         { { c4WState with _request_body := .strv "hi" } with
           headers := [("Content-Type", "application/xml")] }) :=
  ⟨⟨rfl, rfl⟩,
   request_body_memoized_when_not_null c4WState
    { c4WState with _request_body := .strv "hi" } (.strv "hi")
    [("Content-Type", "application/xml")] rfl rfl⟩

/-- Registry of the C5 experiments: msgpack registered first, then json,
with application/json as the default content type (the configuration of
examples.py). -/
def c5Settings : ContentSettings :=
  { (ContentSettings.empty.setitem "application/msgpack" fakeHandler).setitem
      "application/json" otherHandler with
    default_content_type := some "application/json",
    default_encoding := some "utf-8" }

/-- A request with no Accept header at all. -/
def c5State : ReqHandler :=
  { headers := [], body := [], settings := c5Settings,
    _best_response_match := none, _request_body := .null }

/-- C5 counterexample: with the Accept header absent and a default content
type configured, get_response_content_type negotiates the default content
type, not */*; negotiating */* against the ordered availability list would
have selected the earliest registration (application/msgpack) instead. -/
theorem absent_accept_is_not_wildcard :
    hget c5State.headers "Accept" = none
    ∧ (get_response_content_type c5State).1 = some "application/json"
    ∧ negotiateAccept "*/*" c5State.settings = some "application/msgpack" :=
  ⟨rfl, by decide, by decide⟩

/-- C5 amended: when the Accept header is absent, the value negotiated
against the availability list is the default content type when one is set
and non-empty, and */* only otherwise. -/
theorem absent_accept_uses_default_then_wildcard
    (st : ReqHandler)
    (habs : hget st.headers "Accept" = none)
    (hcache : st._best_response_match = none) :
    (get_response_content_type st).1 =
      negotiateAccept
        (match st.settings.default_content_type with
         | some d => if d = "" then "*/*" else d
         | none => "*/*") st.settings := by
  unfold get_response_content_type
  rw [hcache, habs]

/-- Witness for the amended C5 at the no-Accept request. -/
theorem absent_accept_uses_default_then_wildcard_witness :
    (hget c5State.headers "Accept" = none ∧ c5State._best_response_match = none)
    ∧ (get_response_content_type c5State).1 =
        negotiateAccept
          (match c5State.settings.default_content_type with
           | some d => if d = "" then "*/*" else d
           | none => "*/*") c5State.settings :=
  ⟨⟨rfl, rfl⟩, absent_accept_uses_default_then_wildcard c5State rfl rfl⟩

theorem grct_settings (st : ReqHandler) :
    (get_response_content_type st).2.settings = st.settings := by
  unfold get_response_content_type
  cases hb : st._best_response_match <;> rfl

theorem get_request_body_eq (st : ReqHandler) (hv : String)
    (hfresh : st._request_body.isNull = true)
    (hct : (match hget st.headers "Content-Type" with
            | some v => some v
            | none => st.settings.default_content_type) = some hv) :
    get_request_body st =
      (match st.settings.getitem (baseOf (parse_content_type hv)) with
       | none => .error (.http 415)
       | some handler =>
         match handler.from_bytes st.body with
         | .error _ => .error (.http 400)
         | .ok v => .ok (v, { st with _request_body := v })) := by
  unfold get_request_body
  rw [if_pos hfresh, hct]

/-- C6: with a fresh request state and an available content-type string
(header or default), get_request_body fails with 415 exactly when the
type/subtype(+suffix) reduction of the declared type has no registered
transcoder, fails with 400 exactly when the resolved transcoder's
from_bytes call fails, and on success hands the caller exactly the value
from_bytes produced, never anything partial. -/
theorem request_body_error_conditions
    (st : ReqHandler) (hv : String)
    (hfresh : st._request_body.isNull = true)
    (hct : (match hget st.headers "Content-Type" with
            | some v => some v
            | none => st.settings.default_content_type) = some hv) :
    (get_request_body st = .error (.http 415)
      ↔ st.settings.getitem (baseOf (parse_content_type hv)) = none)
    ∧ (get_request_body st = .error (.http 400)
      ↔ ∃ handler, st.settings.getitem (baseOf (parse_content_type hv)) = some handler
          ∧ handler.from_bytes st.body = .error ())
    ∧ (∀ v st1, get_request_body st = .ok (v, st1) →
        ∃ handler, st.settings.getitem (baseOf (parse_content_type hv)) = some handler
          ∧ handler.from_bytes st.body = .ok v) := by
  rw [get_request_body_eq st hv hfresh hct]
  cases hg : st.settings.getitem (baseOf (parse_content_type hv)) with
  | none => simp
  | some handler =>
    cases hfb : handler.from_bytes st.body with
    | error e =>
      cases e
      refine ⟨by simp [hfb], ⟨fun _ => ⟨handler, rfl, hfb⟩, fun _ => by simp [hfb]⟩, ?_⟩
      intro v st1 hok
      simp [hfb] at hok
    | ok v0 =>
      refine ⟨by simp [hfb], ?_, ?_⟩
      · constructor
        · intro hcontra
          simp [hfb] at hcontra
        · rintro ⟨h2, hh2, hfb2⟩
          injection hh2 with hh2
          rw [← hh2, hfb] at hfb2
          nomatch hfb2
      · intro v st1 hok
        simp only [hfb] at hok
        injection hok with h1
        injection h1 with hv1 hst
        exact ⟨handler, rfl, by rw [hfb, hv1]⟩

/-- Witness for C6 on a request with a registered type and a failing body:
the 400 side of the characterization fires. -/
theorem request_body_error_conditions_witness :
    ((⟨[("Content-Type", "application/json")], [123], c4Settings, none,
        .null⟩ : ReqHandler)._request_body.isNull = true
    ∧ (match hget ([("Content-Type", "application/json")] : List (String × String))
          "Content-Type" with
       | some v => some v
       | none => c4Settings.default_content_type) = some "application/json")
    ∧ ((get_request_body
          ⟨[("Content-Type", "application/json")], [123], c4Settings, none, .null⟩
        = .error (.http 415)
      ↔ c4Settings.getitem (baseOf (parse_content_type "application/json")) = none)
    ∧ (get_request_body
          ⟨[("Content-Type", "application/json")], [123], c4Settings, none, .null⟩
        = .error (.http 400)
      ↔ ∃ handler,
          c4Settings.getitem (baseOf (parse_content_type "application/json"))
            = some handler
          ∧ handler.from_bytes [123] = .error ())
    ∧ ∀ v st1,
        get_request_body
          ⟨[("Content-Type", "application/json")], [123], c4Settings, none, .null⟩
        = .ok (v, st1) →
        ∃ handler,
          c4Settings.getitem (baseOf (parse_content_type "application/json"))
            = some handler
          ∧ handler.from_bytes [123] = .ok v) :=
  ⟨⟨rfl, rfl⟩,
   request_body_error_conditions
    ⟨[("Content-Type", "application/json")], [123], c4Settings, none, .null⟩
    "application/json" rfl rfl⟩

theorem send_response_eq (st : ReqHandler) (body : PyVal) (b : Bool) (rt : String)
    (hrt : (get_response_content_type st).1 = some rt) :
    send_response st body b =
      (if rt = "" then .error (.http 415)
       else
         match (get_response_content_type st).2.settings.getitem rt with
         | none => .error .keyError
         | some handler =>
           .ok { content_type_header := if b then some (handler.to_bytes body).1 else none,
                 vary_header := if b then some "Accept" else none,
                 written := (handler.to_bytes body).2,
                 st := (get_response_content_type st).2 }) := by
  unfold send_response
  rw [hrt]

/-- Registry of the C7 counterexample: only json registered, with an
unregistered default content type. -/
def c7Settings : ContentSettings :=
  { ContentSettings.empty.setitem "application/json" fakeHandler with
    default_content_type := some "application/xml" }

/-- A request whose Accept header matches nothing, so negotiation falls
back to the (unregistered) default content type. -/
def c7State : ReqHandler :=
  { headers := [("Accept", "text/html")], body := [], settings := c7Settings,
    _best_response_match := none, _request_body := .null }

/-- C7 counterexample: a default content type is set, so by the claim
send_response should encode and write; instead the registry lookup of the
resolved type raises an uncaught KeyError, which is neither the claimed 415
nor a successful write. -/
theorem send_response_keyerror_escape :
    c7State.settings.default_content_type = some "application/xml"
    ∧ send_response c7State .null true = .error .keyError :=
  ⟨rfl, rfl⟩

/-- C7 amended: send_response raises 415 exactly when the resolved response
type is None or empty; when the resolved type has a registered transcoder it
encodes through to_bytes, writes those bytes and sets the Content-Type and
Vary headers exactly when set_content_type is true; but when the resolved
type is not a registered key the lookup fails with an uncaught KeyError
rather than an HTTP error. -/
theorem send_response_contract (st : ReqHandler) (body : PyVal) :
    ((get_response_content_type st).1 = none →
      ∀ b, send_response st body b = .error (.http 415))
    ∧ ∀ rt, (get_response_content_type st).1 = some rt →
        (rt = "" → ∀ b, send_response st body b = .error (.http 415))
        ∧ (rt ≠ "" → st.settings.getitem rt = none →
            ∀ b, send_response st body b = .error .keyError)
        ∧ (rt ≠ "" → ∀ handler, st.settings.getitem rt = some handler →
            send_response st body true
              = .ok { content_type_header := some (handler.to_bytes body).1,
                      vary_header := some "Accept",
                      written := (handler.to_bytes body).2,
                      st := (get_response_content_type st).2 }
            ∧ send_response st body false
              = .ok { content_type_header := none,
                      vary_header := none,
                      written := (handler.to_bytes body).2,
                      st := (get_response_content_type st).2 }) := by
  constructor
  · intro h0 b
    unfold send_response
    rw [h0]
  · intro rt hrt
    refine ⟨?_, ?_, ?_⟩
    · intro hempty b
      rw [send_response_eq st body b rt hrt, if_pos hempty]
    · intro hne hnone b
      rw [send_response_eq st body b rt hrt, if_neg hne, grct_settings, hnone]
    · intro hne handler hsome
      constructor
      · rw [send_response_eq st body true rt hrt, if_neg hne, grct_settings, hsome]
        rfl
      · rw [send_response_eq st body false rt hrt, if_neg hne, grct_settings, hsome]
        rfl

/-- Witness for the amended C7: the json request of c3WState goes through
the success branch with and without set_content_type. -/
theorem send_response_contract_witness :
    ((get_response_content_type c3WState).1 = some "application/json"
    ∧ ("application/json" : String) ≠ ""
    ∧ c3WState.settings.getitem "application/json" = some fakeHandler)
    ∧ (send_response c3WState .null true
        = .ok { content_type_header := some (fakeHandler.to_bytes .null).1,
                vary_header := some "Accept",
                written := (fakeHandler.to_bytes .null).2,
                st := (get_response_content_type c3WState).2 }
    ∧ send_response c3WState .null false
        = .ok { content_type_header := none,
                vary_header := none,
                written := (fakeHandler.to_bytes .null).2,
                st := (get_response_content_type c3WState).2 }) :=
  ⟨⟨by decide, by decide, rfl⟩,
   ((send_response_contract c3WState .null).2 "application/json" (by decide)).2.2
    (by decide) fakeHandler rfl⟩

/-- C8: the exact byte sequences of the Canonical Binary Codec on the
scalar examples of the claim: a three-byte fixstr, nil, the booleans, the
positive-fixint boundary, the uint8 promotion at 128 and the
negative-fixint boundary at -32. -/
theorem msgpack_exact_encodings :
    pack (.strv "foo") = .ok [0xA3, 0x66, 0x6F, 0x6F]
    ∧ pack .null = .ok [0xC0]
    ∧ pack (.boolv true) = .ok [0xC3]
    ∧ pack (.boolv false) = .ok [0xC2]
    ∧ pack (.intv 127) = .ok [0x7F]
    ∧ pack (.intv 128) = .ok [0xCC, 0x80]
    ∧ pack (.intv (-32)) = .ok [0xE0] :=
  ⟨rfl, rfl, rfl, rfl, rfl, rfl, rfl⟩

theorem lowerChar_eq_semi {c : Char} (h : lowerChar c = ';') : c = ';' := by
  unfold lowerChar at h
  split at h <;> first | exact h | exact absurd h (by decide)

theorem splitOnChar_ne_nil (c : Char) (l : List Char) : splitOnChar c l ≠ [] := by
  induction l with
  | nil => simp [splitOnChar]
  | cons x xs ih =>
    unfold splitOnChar
    by_cases hx : x = c
    · simp [hx]
    · rw [if_neg hx]
      cases hr : splitOnChar c xs with
      | nil => simp
      | cons s rest => simp

theorem not_mem_of_mem_splitOnChar {c : Char} {l seg : List Char}
    (h : seg ∈ splitOnChar c l) : c ∉ seg := by
  induction l generalizing seg with
  | nil =>
    simp [splitOnChar] at h
    subst h
    simp
  | cons x xs ih =>
    unfold splitOnChar at h
    by_cases hx : x = c
    · rw [if_pos hx] at h
      rcases List.mem_cons.mp h with h1 | h1
      · subst h1; simp
      · exact ih h1
    · rw [if_neg hx] at h
      cases hr : splitOnChar c xs with
      | nil => exact absurd hr (splitOnChar_ne_nil c xs)
      | cons s rest =>
        rw [hr] at h
        rcases List.mem_cons.mp h with h1 | h1
        · subst h1
          intro hc
          rcases List.mem_cons.mp hc with h2 | h2
          · exact hx h2.symm
          · exact ih (by rw [hr]; exact List.mem_cons_self s rest) h2
        · exact ih (by rw [hr]; exact List.mem_cons_of_mem s h1)

theorem subset_of_mem_splitOnChar {c : Char} {l seg : List Char}
    (h : seg ∈ splitOnChar c l) : seg ⊆ l := by
  induction l generalizing seg with
  | nil =>
    simp [splitOnChar] at h
    subst h
    exact List.nil_subset _
  | cons x xs ih =>
    unfold splitOnChar at h
    by_cases hx : x = c
    · rw [if_pos hx] at h
      rcases List.mem_cons.mp h with h1 | h1
      · subst h1; exact List.nil_subset _
      · exact fun y hy => List.mem_cons_of_mem x (ih h1 hy)
    · rw [if_neg hx] at h
      cases hr : splitOnChar c xs with
      | nil => exact absurd hr (splitOnChar_ne_nil c xs)
      | cons s rest =>
        rw [hr] at h
        rcases List.mem_cons.mp h with h1 | h1
        · subst h1
          intro y hy
          rcases List.mem_cons.mp hy with h2 | h2
          · exact h2 ▸ List.mem_cons_self x xs
          · exact List.mem_cons_of_mem x
              (ih (by rw [hr]; exact List.mem_cons_self s rest) h2)
        · exact fun y hy => List.mem_cons_of_mem x
            (ih (by rw [hr]; exact List.mem_cons_of_mem s h1) hy)

theorem splitOnChar_of_not_mem {c : Char} {l : List Char} (h : c ∉ l) :
    splitOnChar c l = [l] := by
  induction l with
  | nil => rfl
  | cons x xs ih =>
    unfold splitOnChar
    have hx : ¬ x = c := fun hx => h (by rw [hx]; exact List.mem_cons_self c xs)
    rw [if_neg hx, ih (fun hc => h (List.mem_cons_of_mem x hc))]

theorem mem_trimChars {x : Char} {l : List Char} (h : x ∈ trimChars l) : x ∈ l := by
  unfold trimChars at h
  rw [List.mem_reverse] at h
  have h2 := (List.dropWhile_sublist _).subset h
  rw [List.mem_reverse] at h2
  exact (List.dropWhile_sublist _).subset h2

theorem headD_mem {α : Type} {l : List α} (h : l ≠ []) (d : α) : l.headD d ∈ l := by
  cases l with
  | nil => exact absurd rfl h
  | cons x xs => exact List.mem_cons_self x xs

theorem getLastD_mem {α : Type} {l : List α} (h : l ≠ []) : ∀ d, l.getLastD d ∈ l := by
  induction l with
  | nil => exact absurd rfl h
  | cons x xs ih =>
    intro d
    cases xs with
    | nil => simp [List.getLastD]
    | cons y ys =>
      rw [List.getLastD_cons]
      exact List.mem_cons_of_mem x (ih (by simp) x)

theorem tail_headD_cases {α : Type} (l : List (List α)) :
    l.tail.headD [] = [] ∨ l.tail.headD [] ∈ l := by
  cases l with
  | nil => exact Or.inl rfl
  | cons a as =>
    cases as with
    | nil => exact Or.inl rfl
    | cons b bs => exact Or.inr (List.mem_cons_of_mem a (List.mem_cons_self b bs))

theorem ctHeadSeg_semi_free (s : String) : ';' ∉ ctHeadSeg s := by
  intro hmem
  have h1 := mem_trimChars hmem
  rcases List.mem_map.mp h1 with ⟨c0, hc0, hlc⟩
  have hc := lowerChar_eq_semi hlc
  subst hc
  exact not_mem_of_mem_splitOnChar
    (headD_mem (splitOnChar_ne_nil ';' s.data) []) hc0

theorem ctRest_semi_free (s : String) : ';' ∉ ctRest s := by
  unfold ctRest
  rcases tail_headD_cases (ctSlash s) with h | h
  · rw [h]; simp
  · intro hm
    exact ctHeadSeg_semi_free s (subset_of_mem_splitOnChar h hm)

theorem parse_semi_free (s : String) :
    ';' ∉ (parse_content_type s).content_type.data
    ∧ ';' ∉ (parse_content_type s).content_subtype.data
    ∧ ∀ sfx, (parse_content_type s).content_suffix = some sfx → ';' ∉ sfx.data := by
  refine ⟨?_, ?_, ?_⟩
  · show ';' ∉ (ctSlash s).headD []
    intro hm
    exact ctHeadSeg_semi_free s
      (subset_of_mem_splitOnChar (headD_mem (splitOnChar_ne_nil _ _) _) hm)
  · show ';' ∉ (ctPlus s).headD []
    intro hm
    exact ctRest_semi_free s
      (subset_of_mem_splitOnChar (headD_mem (splitOnChar_ne_nil _ _) _) hm)
  · intro sfx hsfx
    have hsfx2 : (if (ctPlus s).length ≥ 2 then
        some (String.mk ((ctPlus s).getLastD [])) else none) = some sfx := hsfx
    by_cases hlen : (ctPlus s).length ≥ 2
    · rw [if_pos hlen] at hsfx2
      injection hsfx2 with hsfx2
      rw [← hsfx2]
      intro hm
      exact ctRest_semi_free s
        (subset_of_mem_splitOnChar
          (getLastD_mem (splitOnChar_ne_nil _ _) _) hm)
    · rw [if_neg hlen] at hsfx2
      nomatch hsfx2

theorem parse_params_nil {s : String} (h : ';' ∉ s.data) :
    (parse_content_type s).parameters = [] := by
  show (splitOnChar ';' s.data).tail.foldl _ [] = []
  rw [splitOnChar_of_not_mem h]
  rfl

theorem strCT_params_nil (ct : ContentType) (h : ct.parameters = []) :
    strCT ct = baseOf ct := by
  unfold strCT baseOf
  rw [h]
  cases ct.content_suffix <;> rfl

theorem baseOf_semi_free (ct : ContentType)
    (h1 : ';' ∉ ct.content_type.data) (h2 : ';' ∉ ct.content_subtype.data)
    (h3 : ∀ sfx, ct.content_suffix = some sfx → ';' ∉ sfx.data) :
    ';' ∉ (baseOf ct).data := by
  unfold baseOf
  cases hs : ct.content_suffix with
  | none =>
    intro hm
    rw [String.data_append, String.data_append] at hm
    rcases List.mem_append.mp hm with hm1 | hm1
    · rcases List.mem_append.mp hm1 with hm2 | hm2
      · exact h1 hm2
      · simp at hm2
    · exact h2 hm1
  | some sfx =>
    intro hm
    rw [String.data_append, String.data_append, String.data_append,
        String.data_append] at hm
    rcases List.mem_append.mp hm with hm1 | hm1
    · rcases List.mem_append.mp hm1 with hm2 | hm2
      · rcases List.mem_append.mp hm2 with hm3 | hm3
        · rcases List.mem_append.mp hm3 with hm4 | hm4
          · exact h1 hm4
          · simp at hm4
        · exact h2 hm3
      · simp at hm2
    · exact h3 sfx hs hm1

theorem lookupA_none_of_semi {l : List (String × PyHandler)} {key : String}
    (hkeys : ∀ k ∈ l.map Prod.fst, ';' ∈ k.data) (hkey : ';' ∉ key.data) :
    lookupA l key = none := by
  induction l with
  | nil => rfl
  | cons kh rest ih =>
    unfold lookupA
    have hne : ¬ kh.1 = key := by
      intro he
      exact hkey (he ▸ hkeys kh.1 (List.mem_cons_self kh.1 (rest.map Prod.fst)))
    rw [if_neg hne]
    exact ih fun k hk => hkeys k (List.mem_cons_of_mem kh.1 hk)

theorem getitem_none_of_semi (s : ContentSettings) (ctStr : String)
    (hkeys : ∀ k ∈ s._handlers.map Prod.fst, ';' ∈ k.data)
    (hfree : ';' ∉ ctStr.data) :
    s.getitem ctStr = none := by
  unfold ContentSettings.getitem
  apply lookupA_none_of_semi hkeys
  rw [strCT_params_nil _ (parse_params_nil hfree)]
  obtain ⟨h1, h2, h3⟩ := parse_semi_free ctStr
  exact baseOf_semi_free _ h1 h2 h3

/-- Did send_response succeed? -/
def isOkResult : Except HErr SendResult → Bool
  | .ok _ => true
  | .error _ => false

/-- C9: the per-request lookup keys are the type/subtype(+suffix) reduction
of the parsed media type with every parameter discarded (re-parsing the key
yields no parameters), so when every registered normalized key carries
parameters (hence a semicolon), get_request_body always fails with 415 and
send_response never succeeds, even when negotiation selected the
parameterized registration. -/
theorem parameterized_keys_unreachable
    (st : ReqHandler) (hv : String)
    (hfresh : st._request_body.isNull = true)
    (hct : (match hget st.headers "Content-Type" with
            | some v => some v
            | none => st.settings.default_content_type) = some hv)
    (hkeys : ∀ k ∈ st.settings._handlers.map Prod.fst, ';' ∈ k.data) :
    (parse_content_type (baseOf (parse_content_type hv))).parameters = []
    ∧ get_request_body st = .error (.http 415)
    ∧ ∀ rt, (get_response_content_type st).1 = some rt → ';' ∉ rt.data →
        ∀ body b, isOkResult (send_response st body b) = false := by
  have hbfree : ';' ∉ (baseOf (parse_content_type hv)).data := by
    obtain ⟨h1, h2, h3⟩ := parse_semi_free hv
    exact baseOf_semi_free _ h1 h2 h3
  refine ⟨parse_params_nil hbfree, ?_, ?_⟩
  · rw [get_request_body_eq st hv hfresh hct,
        getitem_none_of_semi _ _ hkeys hbfree]
  · intro rt hrt hsemi body b
    by_cases he : rt = ""
    · rw [send_response_eq st body b rt hrt, if_pos he]
      rfl
    · rw [send_response_eq st body b rt hrt, if_neg he, grct_settings,
          getitem_none_of_semi _ _ hkeys hsemi]
      rfl

/-- Registry of the C9 witness: one transcoder registered under a
parameterized media type. -/
def c9Settings : ContentSettings :=
  ContentSettings.empty.setitem "application/json; Version=1" fakeHandler

/-- A request declaring and accepting exactly the parameterized type. -/
def c9State : ReqHandler :=
  { headers := [("Content-Type", "application/json; version=1"),
                ("Accept", "application/json; version=1")],
    body := [], settings := c9Settings,
    _best_response_match := none, _request_body := .null }

/-- Witness for C9: negotiation selects the parameterized registration, yet
both per-request lookups miss it. -/
theorem parameterized_keys_unreachable_witness :
    (c9State._request_body.isNull = true
    ∧ (match hget c9State.headers "Content-Type" with
       | some v => some v
       | none => c9State.settings.default_content_type)
      = some "application/json; version=1"
    ∧ (∀ k ∈ c9State.settings._handlers.map Prod.fst, ';' ∈ k.data)
    ∧ (get_response_content_type c9State).1 = some "application/json"
    ∧ ';' ∉ ("application/json" : String).data)
    ∧ ((parse_content_type
          (baseOf (parse_content_type "application/json; version=1"))).parameters = []
    ∧ get_request_body c9State = .error (.http 415)
    ∧ isOkResult (send_response c9State .null true) = false) :=
  ⟨⟨rfl, rfl, by decide, by decide, by decide⟩,
   ⟨(parameterized_keys_unreachable c9State "application/json; version=1"
      rfl rfl (by decide)).1,
    (parameterized_keys_unreachable c9State "application/json; version=1"
      rfl rfl (by decide)).2.1,
    (parameterized_keys_unreachable c9State "application/json; version=1"
      rfl rfl (by decide)).2.2 "application/json" (by decide) (by decide)
      .null true⟩⟩

end Sprockets
